import Mathlib

/-!
Verification development for the `KlingExWebSocket` streaming client
(`src/websocket.ts` of klingex-js, provided as `src/unnamed/part_001`).

The class is a single-threaded, event-driven state machine.  We embed it
shallowly:

* JSON values produced by `JSON.parse` are the inductive `JValue`;
  JavaScript expression values (which additionally include `undefined`)
  are `JsVal`.  Property access, truthiness, `typeof`, the `in` operator
  and template-literal string coercion are modelled by small total
  functions mirroring the ECMAScript behaviour the code relies on.
* `JSON.parse` itself is modelled by its outcome: `Except JsErr JValue`
  (a thrown syntax error, or the parsed value).
* The mutable instance fields of the class become the `Client` record;
  the transport handles that the instance creates (including stale
  handles whose event handlers keep firing after the instance dropped
  its reference) are tracked in `World.sockets`, indexed by creation
  order, each with its current readyState.
* Each method body and each transport event handler becomes a pure
  function `World -> World × List Effect`, where `Effect` records the
  externally observable actions (wire sends, callback invocations,
  error-handler invocations, `close()` calls, reconnect timers).
* Caller-supplied subscription callbacks are opaque: they are named by a
  `Nat`, and a behaviour map `Nat -> JsVal -> Option JsErr` says, for each
  callback and argument, whether the call returns normally or throws.
-/

namespace KlingEx

/-- JSON values as returned by `JSON.parse` (no `undefined`). -/
inductive JValue where
  | jnull : JValue
  | jbool : Bool → JValue
  | jnum : Int → JValue
  | jstr : String → JValue
  | jarr : List JValue → JValue
  | jobj : List (String × JValue) → JValue

/-- JavaScript expression values: a JSON value or `undefined`
(the result of reading an absent property). -/
inductive JsVal where
  | undef : JsVal
  | val : JValue → JsVal

/-- A thrown JavaScript value: an `Error` instance carrying a message, or a
non-`Error` value (the code distinguishes the two with `instanceof Error`). -/
inductive JsErr where
  | errObj : String → JsErr
  | nonErrVal : JValue → JsErr

/-- Field lookup in a parsed JSON object (`JSON.parse` output has no
duplicate keys: later duplicates overwrite earlier ones, so the object is
already canonical). -/
def lookupField (f : String) : List (String × JValue) → Option JValue
  | [] => none
  | (k, v) :: rest => if k = f then some v else lookupField f rest

/-- JavaScript property read `v.f` on a parsed JSON value: on an object it
yields the field or `undefined`; on `null` it throws a `TypeError` (which the
code catches); on the other primitives and on arrays the properties the code
reads (`type`, `channel`, `data`, `symbol`) do not exist, giving `undefined`. -/
def getProp (v : JValue) (f : String) : Except JsErr JsVal :=
  match v with
  | JValue.jnull => Except.error (JsErr.errObj "TypeError: Cannot read properties of null")
  | JValue.jobj fs =>
      Except.ok (match lookupField f fs with
        | some x => JsVal.val x
        | none => JsVal.undef)
  | _ => Except.ok JsVal.undef

/-- JavaScript truthiness of a value. -/
def truthy : JsVal → Bool
  | JsVal.undef => false
  | JsVal.val JValue.jnull => false
  | JsVal.val (JValue.jbool b) => b
  | JsVal.val (JValue.jnum n) => decide (n ≠ 0)
  | JsVal.val (JValue.jstr s) => decide (s ≠ "")
  | JsVal.val (JValue.jarr _) => true
  | JsVal.val (JValue.jobj _) => true

/-- Whether `typeof v` is the string `"object"` (true for objects, arrays
and `null`; the code only evaluates this after a truthiness guard that
excludes `null`). -/
def typeofObj : JsVal → Bool
  | JsVal.val JValue.jnull => true
  | JsVal.val (JValue.jarr _) => true
  | JsVal.val (JValue.jobj _) => true
  | _ => false

/-- The test `'symbol' in v`, evaluated only on objects or arrays (guarded
by `typeof v === 'object'` and truthiness in the code): property presence
for an object; JSON arrays have no `symbol` property. -/
def hasSymbolField : JsVal → Bool
  | JsVal.val (JValue.jobj fs) => (lookupField "symbol" fs).isSome
  | _ => false

/-- Property read `v.symbol` on the (already guarded) data value. -/
def propSymbol : JsVal → JsVal
  | JsVal.val (JValue.jobj fs) =>
      (match lookupField "symbol" fs with
        | some x => JsVal.val x
        | none => JsVal.undef)
  | _ => JsVal.undef

mutual
/-- ECMAScript `String(v)` conversion of a JSON value, as used by template
literals: arrays join their elements with commas, objects print as
`[object Object]`. -/
def jvalToStr : JValue → String
  | JValue.jnull => "null"
  | JValue.jbool b => cond b "true" "false"
  | JValue.jnum n => toString n
  | JValue.jstr s => s
  | JValue.jarr xs => arrBody xs
  | JValue.jobj _ => "[object Object]"

/-- Body of `Array.prototype.join(",")`: `null` elements become empty
strings, other elements are string-converted. -/
def arrBody : List JValue → String
  | [] => ""
  | [JValue.jnull] => ""
  | [v] => jvalToStr v
  | JValue.jnull :: rest => "," ++ arrBody rest
  | v :: rest => jvalToStr v ++ "," ++ arrBody rest
end

/-- ECMAScript `String(v)` for an expression value (`undefined` prints as
`undefined` in a template literal). -/
def jsvalToStr : JsVal → String
  | JsVal.undef => "undefined"
  | JsVal.val v => jvalToStr v

/-- A registry entry, mirroring `interface Subscription` (websocket.ts
lines 14-18); the opaque `handler` function is named by a `Nat`. -/
structure Subscription where
  channel : String
  symbol : Option String
  handler : Nat
deriving DecidableEq

/-- The `Map<string, Subscription>` held in `this.subscriptions`, as an
insertion-ordered association list (JS `Map` iterates in insertion order). -/
abbrev Registry := List (String × Subscription)

/-- `Map.prototype.get`. -/
def mapGet (k : String) : Registry → Option Subscription
  | [] => none
  | (k', v) :: rest => if k' = k then some v else mapGet k rest

/-- `Map.prototype.set`: replaces an existing key in place (keeping its
insertion position) or appends a new one. -/
def mapSet (k : String) (v : Subscription) : Registry → Registry
  | [] => [(k, v)]
  | (k', v') :: rest => if k' = k then (k, v) :: rest else (k', v') :: mapSet k v rest

/-- `Map.prototype.delete`: removes the entry with the key, if present. -/
def mapDelete (k : String) : Registry → Registry
  | [] => []
  | (k', v') :: rest => if k' = k then rest else (k', v') :: mapDelete k rest

/-- `Map.prototype.get` applied to an arbitrary JS value (`message.channel`
may not be a string); all keys stored in the registry are strings, so a
non-string argument never matches. -/
def jsMapGet (subs : Registry) : JsVal → Option Subscription
  | JsVal.val (JValue.jstr s) => mapGet s subs
  | _ => none

/-- Outbound wire messages (before `JSON.stringify`). -/
inductive OutMsg where
  | subMsg : String → Option String → OutMsg
  | unsubMsg : String → Option String → OutMsg
  | pingMsg : OutMsg
deriving DecidableEq

/-- Externally observable actions of the client. -/
inductive Effect where
  | wireSend : OutMsg → Effect
  | callbackInvoked : Nat → JsVal → Effect
  | errorReported : String → Effect
  | closeCalled : Nat → Nat → Effect
  | timerSet : Rat → Effect

/-- The strict-equality test `message.type === 'pong'` (websocket.ts
line 241): comparison of an arbitrary JS value against a string literal is
true exactly when the value is that string. -/
def isPong : JsVal → Bool
  | JsVal.val (JValue.jstr s) => decide (s = "pong")
  | _ => false

/-- Behaviour of the opaque caller-supplied callbacks: for handler `h`
applied to data `d`, `none` means the call returns normally and
`some e` means it throws `e`. -/
abbrev HandlerBehavior := Nat → JsVal → Option JsErr

/-- The routing key computed at websocket.ts lines 246-248: if
`message.data` is a truthy object containing a `symbol` field, the template
literal produces the string `channel ++ ":" ++ symbol` (with JS string
coercion of both parts); otherwise the key is the raw `message.channel`
value. -/
def routingKey (dv cv : JsVal) : JsVal :=
  if truthy dv && typeofObj dv && hasSymbolField dv then
    JsVal.val (JValue.jstr (jsvalToStr cv ++ ":" ++ jsvalToStr (propSymbol dv)))
  else cv

/-- The lookup at websocket.ts line 250:
`this.subscriptions.get(key) || this.subscriptions.get(message.channel)`. -/
def findSubscription (subs : Registry) (dv cv : JsVal) : Option Subscription :=
  match jsMapGet subs (routingKey dv cv) with
  | some s => some s
  | none => jsMapGet subs cv

/-- The `try` body of `handleMessage` (websocket.ts lines 237-254): the
effects it produces before returning or throwing, and the thrown value if
it throws.  The input is the outcome of `JSON.parse(data)`. -/
def handleMessageCore (subs : Registry) (hbeh : HandlerBehavior)
    (frame : Except JsErr JValue) : List Effect × Option JsErr :=
  match frame with
  | Except.error e => ([], some e)
  | Except.ok message =>
    match getProp message "type" with
    | Except.error e => ([], some e)
    | Except.ok tv =>
      if isPong tv then ([], none)
      else
        match getProp message "data", getProp message "channel" with
        | Except.error e, _ => ([], some e)
        | Except.ok _, Except.error e => ([], some e)
        | Except.ok dv, Except.ok cv =>
          match findSubscription subs dv cv with
          | some sub => ([Effect.callbackInvoked sub.handler dv], hbeh sub.handler dv)
          | none => ([], none)

/-- The `catch` clause's argument coercion (websocket.ts line 256):
`error instanceof Error ? error : new Error('Failed to parse message')`. -/
def coerceCaught : JsErr → String
  | JsErr.errObj m => m
  | JsErr.nonErrVal _ => "Failed to parse message"

/-- `handleMessage` (websocket.ts lines 236-258): runs the `try` body; a
thrown value is caught and handed to the optional error handler
(`errSet` says whether one is registered). -/
def handleMessage (errSet : Bool) (subs : Registry) (hbeh : HandlerBehavior)
    (frame : Except JsErr JValue) : List Effect :=
  match handleMessageCore subs hbeh frame with
  | (effs, none) => effs
  | (effs, some e) =>
      effs ++ (if errSet then [Effect.errorReported (coerceCaught e)] else [])

/-- The readyState of one `WebSocket` transport handle. -/
inductive ReadyState where
  | connecting : ReadyState
  | opened : ReadyState
  | closing : ReadyState
  | closed : ReadyState
deriving DecidableEq

/-- Index lookup in the list of created transport handles. -/
def nthRS : List ReadyState → Nat → Option ReadyState
  | [], _ => none
  | s :: _, 0 => some s
  | _ :: rest, n + 1 => nthRS rest n

/-- Index update in the list of created transport handles. -/
def setRS : List ReadyState → Nat → ReadyState → List ReadyState
  | [], _, _ => []
  | _ :: rest, 0, v => v :: rest
  | s :: rest, n + 1, v => s :: setRS rest n v

/-- The mutable instance fields of `KlingExWebSocket` (websocket.ts lines
21-31).  `ws` is the id of the handle currently held by `this.ws` (`none`
when `null`); `reconnect`, `reconnectInterval`, `maxReconnectAttempts` are
the fields of the mutable `this.options`; `reconnectTimeout` and
`pingInterval` record whether the corresponding timer handle is set;
`errSet` records whether `onError` registered an error handler.  The
`url`/`apiKey`/`jwt` fields only feed the connection URL and are elided:
no claim observes them. -/
structure Client where
  ws : Option Nat
  reconnect : Bool
  reconnectInterval : Rat
  maxReconnectAttempts : Nat
  subscriptions : Registry
  reconnectAttempts : Nat
  reconnectTimeout : Bool
  pingInterval : Bool
  isConnecting : Bool
  errSet : Bool
deriving DecidableEq

/-- The constructor (websocket.ts lines 33-46): option defaults applied
with `??`. -/
def mkClient (reconnectOpt : Option Bool) (intervalOpt : Option Rat)
    (maxOpt : Option Nat) : Client :=
  { ws := none
    reconnect := reconnectOpt.getD true
    reconnectInterval := intervalOpt.getD 5000
    maxReconnectAttempts := maxOpt.getD 10
    subscriptions := []
    reconnectAttempts := 0
    reconnectTimeout := false
    pingInterval := false
    isConnecting := false
    errSet := false }

/-- A client instance together with every transport handle it has created
(`sockets`, indexed by creation order).  Stale handles keep their event
handlers attached to the same instance, so their events still mutate the
client. -/
structure World where
  client : Client
  sockets : List ReadyState
deriving DecidableEq

/-- Whether `this.ws?.readyState === WebSocket.OPEN` holds. -/
def wsOpenB (w : World) : Bool :=
  match w.client.ws with
  | some j => decide (nthRS w.sockets j = some ReadyState.opened)
  | none => false

/-- `send` (websocket.ts lines 230-234): stringifies and sends only while
the current handle is open. -/
def send (w : World) (m : OutMsg) : List Effect :=
  if wsOpenB w then [Effect.wireSend m] else []

/-- `sendSubscribe` (websocket.ts lines 214-220). -/
def sendSubscribe (w : World) (channel : String) (symbol : Option String) : List Effect :=
  send w (OutMsg.subMsg channel symbol)

/-- `sendUnsubscribe` (websocket.ts lines 222-228). -/
def sendUnsubscribe (w : World) (channel : String) (symbol : Option String) : List Effect :=
  send w (OutMsg.unsubMsg channel symbol)

/-- The key expression of `subscribe` (websocket.ts line 192):
a template literal under JS truthiness, so an absent or empty symbol both
yield the bare channel. -/
def subKey (channel : String) (symbol : Option String) : String :=
  match symbol with
  | some s => if s = "" then channel else channel ++ ":" ++ s
  | none => channel

/-- The data captured by the closure `subscribe` returns (websocket.ts
lines 206-211): the identity key and the channel/symbol for the wire
message — not the subscription entry itself. -/
structure Unsub where
  key : String
  channel : String
  symbol : Option String
deriving DecidableEq

/-- `subscribe` (websocket.ts lines 187-212): stores or replaces the
registry entry under its identity key, sends a wire subscribe if the
transport is open, and returns the unsubscribe closure. -/
def subscribe (w : World) (channel : String) (symbol : Option String)
    (handler : Nat) : World × List Effect × Unsub :=
  let key := subKey channel symbol
  let subs := mapSet key ⟨channel, symbol, handler⟩ w.client.subscriptions
  ({ w with client := { w.client with subscriptions := subs } },
   sendSubscribe w channel symbol,
   ⟨key, channel, symbol⟩)

/-- The body of the closure returned by `subscribe` (websocket.ts lines
206-211): deletes the captured key and, whenever the transport is
currently open, sends a wire unsubscribe — on every invocation. -/
def unsubscribe (w : World) (u : Unsub) : World × List Effect :=
  ({ w with client := { w.client with
      subscriptions := mapDelete u.key w.client.subscriptions } },
   sendUnsubscribe w u.channel u.symbol)

/-- `resubscribeAll` (websocket.ts lines 260-264): replays every registry
entry, in insertion order, through `sendSubscribe`. -/
def resubscribeAll (w : World) : List Effect :=
  (w.client.subscriptions.map
    (fun p => sendSubscribe w p.2.channel p.2.symbol)).flatten

/-- `scheduleReconnect` (websocket.ts lines 266-280): at the attempt cap it
only reports the exhausted-retries error; otherwise it increments the
counter first and schedules a timer for
`reconnectInterval * 1.5 ^ (reconnectAttempts - 1)` (exact rational
arithmetic stands in for the JS float computation, which is exact for
these operands). -/
def scheduleReconnect (c : Client) : Client × List Effect :=
  if c.maxReconnectAttempts ≤ c.reconnectAttempts then
    (c, if c.errSet then [Effect.errorReported "Max reconnection attempts reached"] else [])
  else
    let c1 := { c with reconnectAttempts := c.reconnectAttempts + 1, reconnectTimeout := true }
    (c1, [Effect.timerSet (c.reconnectInterval * (3 / 2 : Rat) ^ (c1.reconnectAttempts - 1))])

/-- `connect` (websocket.ts lines 51-102) up to its first suspension
point: the guard makes it a no-op when the current handle is `OPEN` or
`isConnecting` is set; otherwise it sets `isConnecting`, constructs a new
transport handle (in `CONNECTING` state) with the event handlers attached,
and stores it in `this.ws`.  URL and auth-query construction is elided
(the configured URL is assumed well-formed, so the `catch` arm for `new
URL` throwing is unreachable). -/
def connect (w : World) : World × List Effect :=
  if wsOpenB w || w.client.isConnecting then (w, [])
  else
    ({ client := { w.client with ws := some w.sockets.length, isConnecting := true }
       sockets := w.sockets ++ [ReadyState.connecting] }, [])

/-- `close(1000, ...)` on the current handle: a handle that is already
closed stays closed, any other moves to `CLOSING` (the close event itself
arrives later as a separate transport event). -/
def closeCurrent (ss : List ReadyState) (j : Nat) : List ReadyState :=
  match nthRS ss j with
  | some ReadyState.closed => ss
  | _ => setRS ss j ReadyState.closing

/-- `disconnect` (websocket.ts lines 107-122): disables reconnection,
stops the ping timer, cancels a pending reconnect timer, closes and drops
the current handle, and clears the whole registry. -/
def disconnect (w : World) : World × List Effect :=
  match w.client.ws with
  | some j =>
      ({ client :=
           { w.client with
             reconnect := false
             pingInterval := false
             reconnectTimeout := false
             ws := none
             subscriptions := [] }
         sockets := closeCurrent w.sockets j },
       [Effect.closeCalled j 1000])
  | none =>
      ({ w with
         client :=
           { w.client with
             reconnect := false
             pingInterval := false
             reconnectTimeout := false
             subscriptions := [] } }, [])

/-- The `onopen` handler body (websocket.ts lines 70-76), run after the
transport marked the handle open: clears `isConnecting`, resets the
attempt counter, starts the ping interval and replays the registry. -/
def onopenBody (w : World) : World × List Effect :=
  let w1 := { w with client := { w.client with
      isConnecting := false, reconnectAttempts := 0, pingInterval := true } }
  (w1, resubscribeAll w1)

/-- The `onclose` handler body (websocket.ts lines 78-85): clears
`isConnecting`, stops the ping interval, and schedules a reconnect only
for a non-clean closure while reconnection is enabled. -/
def oncloseBody (w : World) (wasClean : Bool) : World × List Effect :=
  let c1 := { w.client with isConnecting := false, pingInterval := false }
  if c1.reconnect && !wasClean then
    let r := scheduleReconnect c1
    ({ w with client := r.1 }, r.2)
  else
    ({ w with client := c1 }, [])

/-- The `onerror` handler body (websocket.ts lines 87-92): clears
`isConnecting` and reports a generic transport error. -/
def onerrorBody (w : World) : World × List Effect :=
  ({ w with client := { w.client with isConnecting := false } },
   if w.client.errSet then [Effect.errorReported "WebSocket error"] else [])

/-- The events the client reacts to: public API calls by the caller,
transport events fired on a (possibly stale) handle, and timer firings. -/
inductive Ev where
  | callConnect : Ev
  | callDisconnect : Ev
  | callSubscribe : String → Option String → Nat → Ev
  | callUnsub : Unsub → Ev
  | callOnError : Ev
  | sockOpen : Nat → Ev
  | sockClose : Nat → Bool → Ev
  | sockError : Nat → Ev
  | sockMsg : Nat → Except JsErr JValue → Ev
  | timerFire : Ev
  | pingTick : Ev

/-- One step of the event loop: every handler attached to a handle runs
against the current instance state, whether or not the handle is still the
one in `this.ws`.  The transport updates the handle's readyState before
the corresponding handler body runs. -/
def step (hbeh : HandlerBehavior) (w : World) : Ev → World × List Effect
  | Ev.callConnect => connect w
  | Ev.callDisconnect => disconnect w
  | Ev.callSubscribe ch sym h =>
      let r := subscribe w ch sym h
      (r.1, r.2.1)
  | Ev.callUnsub u => unsubscribe w u
  | Ev.callOnError => ({ w with client := { w.client with errSet := true } }, [])
  | Ev.sockOpen id => onopenBody { w with sockets := setRS w.sockets id ReadyState.opened }
  | Ev.sockClose id wasClean =>
      oncloseBody { w with sockets := setRS w.sockets id ReadyState.closed } wasClean
  | Ev.sockError id => onerrorBody { w with sockets := setRS w.sockets id ReadyState.closing }
  | Ev.sockMsg _ frame =>
      (w, handleMessage w.client.errSet w.client.subscriptions hbeh frame)
  | Ev.timerFire => connect { w with client := { w.client with reconnectTimeout := false } }
  | Ev.pingTick => (w, if w.client.pingInterval then send w OutMsg.pingMsg else [])

/-- Which events the environment can actually deliver in a state: transport
events fit the handle's current readyState, and timers only fire while
set. -/
def evOk (w : World) : Ev → Bool
  | Ev.sockOpen id => decide (nthRS w.sockets id = some ReadyState.connecting)
  | Ev.sockClose id _ =>
      decide (nthRS w.sockets id = some ReadyState.connecting) ||
      decide (nthRS w.sockets id = some ReadyState.opened) ||
      decide (nthRS w.sockets id = some ReadyState.closing)
  | Ev.sockError id =>
      decide (nthRS w.sockets id = some ReadyState.connecting) ||
      decide (nthRS w.sockets id = some ReadyState.opened)
  | Ev.sockMsg id _ => decide (nthRS w.sockets id = some ReadyState.opened)
  | Ev.timerFire => w.client.reconnectTimeout
  | Ev.pingTick => w.client.pingInterval
  | _ => true

/-- Whether a whole event sequence is deliverable from a state. -/
def traceOk (hbeh : HandlerBehavior) (w : World) : List Ev → Bool
  | [] => true
  | e :: rest => evOk w e && traceOk hbeh (step hbeh w e).1 rest

/-- Run an event sequence, collecting all effects in order. -/
def runTrace (hbeh : HandlerBehavior) (w : World) : List Ev → World × List Effect
  | [] => (w, [])
  | e :: rest =>
      let r := step hbeh w e
      let r2 := runTrace hbeh r.1 rest
      (r2.1, r.2 ++ r2.2)

/-- A reconnection sequence in which every scheduled attempt ends in a
non-clean closure, driving `scheduleReconnect` again, until a call
schedules nothing: the collected effects.  The fuel argument only bounds
the recursion; `driveReconnects` supplies enough. -/
def driveReconnectsFuel : Nat → Client → List Effect
  | 0, _ => []
  | fuel + 1, c =>
      let r := scheduleReconnect c
      if r.1.reconnectAttempts = c.reconnectAttempts then r.2
      else r.2 ++ driveReconnectsFuel fuel r.1

/-- The effects of a maximal reconnection sequence started at `c`. -/
def driveReconnects (c : Client) : List Effect :=
  driveReconnectsFuel (c.maxReconnectAttempts - c.reconnectAttempts + 1) c

/-- Whether an effect is an invocation of the error handler. -/
def isErrEffect : Effect → Bool
  | Effect.errorReported _ => true
  | _ => false

/-- Whether a handle is live (connecting or open). -/
def isLive : ReadyState → Bool
  | ReadyState.connecting => true
  | ReadyState.opened => true
  | _ => false

/-- How many live transport handles exist. -/
def liveCount (ss : List ReadyState) : Nat :=
  (ss.filter isLive).length

/-! ### Helper lemmas about the registry and handle-list operations -/

theorem mapGet_mapSet_self (k : String) (v : Subscription) (m : Registry) :
    mapGet k (mapSet k v m) = some v := by
  induction m with
  | nil => simp [mapSet, mapGet]
  | cons p rest ih =>
      obtain ⟨k', v'⟩ := p
      by_cases h : k' = k <;> simp [mapSet, mapGet, h, ih]

theorem mapDelete_mapSet (k : String) (v : Subscription) (m : Registry) :
    mapDelete k (mapSet k v m) = mapDelete k m := by
  induction m with
  | nil => simp [mapSet, mapDelete]
  | cons p rest ih =>
      obtain ⟨k', v'⟩ := p
      by_cases h : k' = k <;> simp [mapSet, mapDelete, h, ih]

theorem mapGet_eq_none (k : String) (m : Registry) (h : k ∉ m.map Prod.fst) :
    mapGet k m = none := by
  induction m with
  | nil => simp [mapGet]
  | cons p rest ih =>
      obtain ⟨k', v'⟩ := p
      simp only [List.map_cons, List.mem_cons] at h
      push_neg at h
      have hne : k' ≠ k := fun hh => h.1 hh.symm
      simp [mapGet, hne, ih h.2]

theorem not_mem_keys_mapDelete (k : String) (m : Registry)
    (h : (m.map Prod.fst).Nodup) : k ∉ (mapDelete k m).map Prod.fst := by
  induction m with
  | nil => simp [mapDelete]
  | cons p rest ih =>
      obtain ⟨k', v'⟩ := p
      simp only [List.map_cons, List.nodup_cons] at h
      by_cases hk : k' = k
      · subst hk
        simpa [mapDelete] using h.1
      · simp only [mapDelete, if_neg hk, List.map_cons, List.mem_cons]
        push_neg
        exact ⟨fun hh => hk hh.symm, ih h.2⟩

theorem mapGet_mapDelete_self (k : String) (m : Registry)
    (h : (m.map Prod.fst).Nodup) : mapGet k (mapDelete k m) = none :=
  mapGet_eq_none k _ (not_mem_keys_mapDelete k m h)

theorem mapDelete_not_mem (k : String) (m : Registry) (h : k ∉ m.map Prod.fst) :
    mapDelete k m = m := by
  induction m with
  | nil => simp [mapDelete]
  | cons p rest ih =>
      obtain ⟨k', v'⟩ := p
      simp only [List.map_cons, List.mem_cons] at h
      push_neg at h
      have hne : k' ≠ k := fun hh => h.1 hh.symm
      simp [mapDelete, hne, ih h.2]

theorem nthRS_setRS_self (ss : List ReadyState) (i : Nat) (x v : ReadyState)
    (h : nthRS ss i = some x) : nthRS (setRS ss i v) i = some v := by
  induction ss generalizing i with
  | nil => simp [nthRS] at h
  | cons s rest ih =>
      cases i with
      | zero => simp [nthRS, setRS]
      | succ n => exact ih n (by simpa [nthRS] using h)

theorem flatten_map_singleton {α β : Type} (l : List α) (f : α → β) :
    (l.map (fun x => [f x])).flatten = l.map f := by
  induction l with
  | nil => rfl
  | cons x rest ih => simp [ih]

/-! ### Helper lemmas about message routing -/

theorem jsMapGet_some (subs : Registry) (v : JsVal) (sub : Subscription)
    (h : jsMapGet subs v = some sub) : ∃ k, mapGet k subs = some sub := by
  unfold jsMapGet at h
  split at h
  · exact ⟨_, h⟩
  · exact absurd h (by simp)

theorem findSubscription_some (subs : Registry) (dv cv : JsVal) (sub : Subscription)
    (h : findSubscription subs dv cv = some sub) : ∃ k, mapGet k subs = some sub := by
  unfold findSubscription at h
  split at h
  · next heq => exact jsMapGet_some _ _ _ (heq.trans h)
  · exact jsMapGet_some _ _ _ h

theorem handleMessageCore_mem (subs : Registry) (hbeh : HandlerBehavior)
    (frame : Except JsErr JValue) (x : Effect)
    (hx : x ∈ (handleMessageCore subs hbeh frame).1) :
    ∃ k s d, mapGet k subs = some s ∧ x = Effect.callbackInvoked s.handler d := by
  unfold handleMessageCore at hx
  split at hx
  · simp at hx
  · split at hx
    · simp at hx
    · split at hx
      · simp at hx
      · split at hx
        · simp at hx
        · simp at hx
        · split at hx
          · next sub hfind =>
              simp only [List.mem_singleton] at hx
              obtain ⟨k, hk⟩ := findSubscription_some _ _ _ _ hfind
              exact ⟨k, sub, _, hk, hx⟩
          · simp at hx

theorem handleMessage_mem (es : Bool) (subs : Registry) (hbeh : HandlerBehavior)
    (frame : Except JsErr JValue) (x : Effect)
    (hx : x ∈ handleMessage es subs hbeh frame) :
    (∃ m, x = Effect.errorReported m) ∨
    (∃ k s d, mapGet k subs = some s ∧ x = Effect.callbackInvoked s.handler d) := by
  unfold handleMessage at hx
  split at hx
  · next effs heq =>
      right
      exact handleMessageCore_mem subs hbeh frame x (by rw [heq]; exact hx)
  · next effs e heq =>
      rw [List.mem_append] at hx
      rcases hx with hx | hx
      · right
        exact handleMessageCore_mem subs hbeh frame x (by rw [heq]; exact hx)
      · left
        split at hx
        · simp only [List.mem_singleton] at hx
          exact ⟨_, hx⟩
        · simp at hx

theorem timerSet_not_mem_handleMessage (es : Bool) (subs : Registry)
    (hbeh : HandlerBehavior) (frame : Except JsErr JValue) (d : Rat) :
    Effect.timerSet d ∉ handleMessage es subs hbeh frame := by
  intro hx
  rcases handleMessage_mem es subs hbeh frame _ hx with ⟨m, hm⟩ | ⟨k, s, dd, _, hm⟩ <;> cases hm

theorem timerSet_not_mem_resubscribeAll (w : World) (d : Rat) :
    Effect.timerSet d ∉ resubscribeAll w := by
  simp only [resubscribeAll, sendSubscribe, send, List.mem_flatten, List.mem_map]
  rintro ⟨l, ⟨p, hp, rfl⟩, hd⟩
  by_cases hw : wsOpenB w = true <;> simp [hw] at hd

theorem resubscribeAll_open (w : World) (h : wsOpenB w = true) :
    resubscribeAll w = w.client.subscriptions.map
      (fun p => Effect.wireSend (OutMsg.subMsg p.2.channel p.2.symbol)) := by
  unfold resubscribeAll sendSubscribe send
  simp only [h, if_true]
  exact flatten_map_singleton _ _

/-! ### Helper lemmas about the event-loop state machine -/

/-- A clean closure runs the handler but never reaches `scheduleReconnect`. -/
theorem oncloseBody_clean (w : World) :
    oncloseBody w true = ({ w with client := { w.client with
      isConnecting := false, pingInterval := false } }, []) := by
  simp [oncloseBody]

/-- With reconnection disabled the closure handler never reaches
`scheduleReconnect`, whatever the closure kind. -/
theorem oncloseBody_off (w : World) (wasClean : Bool)
    (h : w.client.reconnect = false) :
    oncloseBody w wasClean = ({ w with client := { w.client with
      isConnecting := false, pingInterval := false } }, []) := by
  simp [oncloseBody, h]

/-- `disconnect` turns the reconnect option off and leaves no pending
reconnect timer. -/
theorem disconnect_off (w : World) :
    (disconnect w).1.client.reconnect = false ∧
    (disconnect w).1.client.reconnectTimeout = false := by
  unfold disconnect
  cases w.client.ws <;> simp

/-- `connect` never changes `options.reconnect` or the pending-timer flag
and never sets a timer. -/
theorem connect_keeps_off (w : World) :
    (connect w).1.client.reconnect = w.client.reconnect ∧
    (connect w).1.client.reconnectTimeout = w.client.reconnectTimeout ∧
    (connect w).2 = [] := by
  by_cases hc : (wsOpenB w || w.client.isConnecting) = true <;>
    simp [connect, hc]

/-- Once the reconnect option is off and no reconnect timer is pending, any
single event keeps it that way and never sets a reconnect timer: nothing in
the class ever writes `true` back into `options.reconnect`, and
`scheduleReconnect` is only reachable through the `onclose` guard. -/
theorem step_keeps_off (hbeh : HandlerBehavior) (w : World) (e : Ev)
    (h1 : w.client.reconnect = false) (h2 : w.client.reconnectTimeout = false) :
    (step hbeh w e).1.client.reconnect = false ∧
    (step hbeh w e).1.client.reconnectTimeout = false ∧
    ∀ d, Effect.timerSet d ∉ (step hbeh w e).2 := by
  cases e with
  | callConnect =>
      simp only [step]
      have hco := connect_keeps_off w
      exact ⟨hco.1.trans h1, hco.2.1.trans h2, by simp [hco.2.2]⟩
  | callDisconnect =>
      simp only [step]
      unfold disconnect
      cases w.client.ws <;> simp
  | callSubscribe ch sym h =>
      simp only [step, subscribe, sendSubscribe, send]
      refine ⟨h1, h2, fun d => ?_⟩
      by_cases hc : wsOpenB w = true <;> simp [hc]
  | callUnsub u =>
      simp only [step, unsubscribe, sendUnsubscribe, send]
      refine ⟨h1, h2, fun d => ?_⟩
      by_cases hc : wsOpenB w = true <;> simp [hc]
  | callOnError => exact ⟨h1, h2, by simp [step]⟩
  | sockOpen id =>
      simp only [step, onopenBody]
      exact ⟨h1, h2, fun d => timerSet_not_mem_resubscribeAll _ d⟩
  | sockClose id wasClean =>
      simp only [step]
      rw [oncloseBody_off
        { client := w.client, sockets := setRS w.sockets id ReadyState.closed } wasClean h1]
      exact ⟨h1, h2, by simp⟩
  | sockError id =>
      simp only [step, onerrorBody]
      refine ⟨h1, h2, fun d => ?_⟩
      by_cases hc : w.client.errSet = true <;> simp [hc]
  | sockMsg id frame =>
      simp only [step]
      exact ⟨h1, h2, fun d => timerSet_not_mem_handleMessage _ _ _ _ d⟩
  | timerFire =>
      simp only [step]
      have hco := connect_keeps_off
        { w with client := { w.client with reconnectTimeout := false } }
      exact ⟨hco.1.trans h1, hco.2.1, by simp [hco.2.2]⟩
  | pingTick =>
      simp only [step, send]
      refine ⟨h1, h2, fun d => ?_⟩
      by_cases hp : w.client.pingInterval = true <;>
        by_cases hc : wsOpenB w = true <;> simp [hp, hc]

set_option maxRecDepth 4000 in
/-- Closed form of a driven reconnection sequence with enough fuel: one
timer per remaining attempt, with the backoff delays in order, then the
single exhausted-retries error report. -/
theorem driveReconnectsFuel_spec : ∀ (fuel : Nat) (c : Client),
    c.maxReconnectAttempts - c.reconnectAttempts < fuel →
    driveReconnectsFuel fuel c =
      (List.range (c.maxReconnectAttempts - c.reconnectAttempts)).map
        (fun i => Effect.timerSet
          (c.reconnectInterval * (3 / 2 : Rat) ^ (c.reconnectAttempts + i)))
      ++ (if c.errSet then [Effect.errorReported "Max reconnection attempts reached"] else []) := by
  intro fuel
  induction fuel with
  | zero => exact fun c h => absurd h (Nat.not_lt_zero _)
  | succ fuel ih =>
      intro c h
      by_cases hM : c.maxReconnectAttempts ≤ c.reconnectAttempts
      · simp [driveReconnectsFuel, scheduleReconnect, hM, Nat.sub_eq_zero_of_le hM]
      · have ha : c.reconnectAttempts < c.maxReconnectAttempts := Nat.lt_of_not_le hM
        have hfuel : c.maxReconnectAttempts - (c.reconnectAttempts + 1) < fuel := by omega
        have hx := ih
          { c with reconnectAttempts := c.reconnectAttempts + 1, reconnectTimeout := true }
          hfuel
        simp only [driveReconnectsFuel, scheduleReconnect, if_neg hM] at hx ⊢
        simp only [Nat.add_sub_cancel]
        have hne : ¬(c.reconnectAttempts + 1 = c.reconnectAttempts) := by omega
        simp only [if_neg hne]
        rw [hx]
        have hn : c.maxReconnectAttempts - c.reconnectAttempts
            = (c.maxReconnectAttempts - (c.reconnectAttempts + 1)) + 1 := by omega
        have hfun : ((fun i => Effect.timerSet
              (c.reconnectInterval * (3 / 2 : Rat) ^ (c.reconnectAttempts + i))) ∘ Nat.succ)
            = fun i => Effect.timerSet
              (c.reconnectInterval * (3 / 2 : Rat) ^ (c.reconnectAttempts + 1 + i)) := by
          funext i
          have hexp : c.reconnectAttempts + Nat.succ i
              = c.reconnectAttempts + 1 + i := by omega
          simp [Function.comp, hexp]
        rw [hn, List.range_succ_eq_map, List.map_cons, List.map_map, hfun]
        simp only [Nat.add_zero, List.cons_append, List.nil_append]

/-- When the data value is a truthy object with a `symbol` field holding a
string, the routing key is the qualified `channel:symbol` string. -/
theorem routingKey_symbol (fs : List (String × JValue)) (ch s : String)
    (hsym : lookupField "symbol" fs = some (JValue.jstr s)) :
    routingKey (JsVal.val (JValue.jobj fs)) (JsVal.val (JValue.jstr ch))
      = JsVal.val (JValue.jstr (ch ++ ":" ++ s)) := by
  simp [routingKey, truthy, typeofObj, hasSymbolField, hsym, propSymbol,
    jsvalToStr, jvalToStr]

/-- When the symbol-extraction condition fails, the routing key is the raw
channel value. -/
theorem routingKey_bare (dv cv : JsVal)
    (h : (truthy dv && typeofObj dv && hasSymbolField dv) = false) :
    routingKey dv cv = cv := by
  simp [routingKey, h]

/-- Behaviour of the full `handleMessage` on a parsed non-pong frame, as a
function of the subscription lookup and the callback's behaviour. -/
theorem handleMessage_dispatch (es : Bool) (subs : Registry)
    (hbeh : HandlerBehavior) (msg : JValue) (tv dv cv : JsVal)
    (htype : getProp msg "type" = Except.ok tv) (hpong : isPong tv = false)
    (hdata : getProp msg "data" = Except.ok dv)
    (hch : getProp msg "channel" = Except.ok cv) :
    handleMessage es subs hbeh (Except.ok msg) =
      match findSubscription subs dv cv with
      | some sub =>
          Effect.callbackInvoked sub.handler dv ::
            (match hbeh sub.handler dv with
             | none => []
             | some e => if es then [Effect.errorReported (coerceCaught e)] else [])
      | none => [] := by
  simp only [handleMessage, handleMessageCore, htype, hdata, hch, hpong,
    Bool.false_eq_true, if_false]
  cases hfind : findSubscription subs dv cv with
  | none => simp [hfind]
  | some sub =>
      simp only [hfind]
      cases hbe : hbeh sub.handler dv with
      | none => simp [hbe]
      | some e => cases es <;> simp [hbe]

/-- The reconnect-disabled invariant is preserved by whole event
sequences. -/
theorem runTrace_keeps_off (hbeh : HandlerBehavior) (evs : List Ev) :
    ∀ w : World, w.client.reconnect = false → w.client.reconnectTimeout = false →
    (runTrace hbeh w evs).1.client.reconnect = false ∧
    (runTrace hbeh w evs).1.client.reconnectTimeout = false := by
  induction evs with
  | nil => exact fun w h1 h2 => ⟨h1, h2⟩
  | cons e rest ih =>
      intro w h1 h2
      have hs := step_keeps_off hbeh w e h1 h2
      exact ih (step hbeh w e).1 hs.1 hs.2.1

/-! ### Concrete inputs used to instantiate the claims -/

/-- Callback behaviour in which every callback returns normally. -/
def hbehNone : HandlerBehavior := fun _ _ => none

/-- Callback behaviour in which every callback throws an `Error`. -/
def hbehBoom : HandlerBehavior := fun _ _ => some (JsErr.errObj "boom")

/-- Fields of the data payload of the example orderbook message. -/
def dataFieldsC1 : List (String × JValue) :=
  [("symbol", JValue.jstr "BTC-USDT"), ("bids", JValue.jarr [])]

/-- Data payload of the example orderbook message. -/
def dataC1 : JValue := JValue.jobj dataFieldsC1

/-- The example inbound orderbook data message with
`data.symbol = "BTC-USDT"` and `channel = "orderbook"`. -/
def msgC1 : JValue :=
  JValue.jobj [("channel", JValue.jstr "orderbook"), ("event", JValue.jstr "update"),
    ("data", dataC1), ("timestamp", JValue.jstr "2024-01-01T00:00:00Z")]

/-- Registry with one callback for `orderbook`/`BTC-USDT` (handler 1) and
one for `orderbook`/`ETH-USDT` (handler 2). -/
def regC1 : Registry :=
  [("orderbook:BTC-USDT", ⟨"orderbook", some "BTC-USDT", 1⟩),
   ("orderbook:ETH-USDT", ⟨"orderbook", some "ETH-USDT", 2⟩)]

/-- A liveness-reply frame. -/
def pongMsg : JValue := JValue.jobj [("type", JValue.jstr "pong")]

/-- A data message whose routing key matches nothing in `regC1`. -/
def msgNoMatch : JValue :=
  JValue.jobj [("channel", JValue.jstr "trades"),
    ("data", JValue.jobj [("symbol", JValue.jstr "BTC-USDT")])]

/-! ### The claims -/

/-- C1: for an inbound data message whose decoded `data` object contains a
`symbol` field the routing key is `channel ++ ":" ++ symbol`, otherwise the
raw channel value; the registry is consulted first under the qualified key
with a fallback to the bare channel; consequently the example BTC-USDT
orderbook message is delivered exactly to the callback registered for
`("orderbook", "BTC-USDT")` and never to the one for
`("orderbook", "ETH-USDT")`. -/
theorem claim_C1 :
    (∀ (subs : Registry) (ch s : String) (fs : List (String × JValue)),
        lookupField "symbol" fs = some (JValue.jstr s) →
        findSubscription subs (JsVal.val (JValue.jobj fs)) (JsVal.val (JValue.jstr ch)) =
          (match mapGet (ch ++ ":" ++ s) subs with
           | some sub => some sub
           | none => mapGet ch subs))
    ∧ (∀ (subs : Registry) (ch : String) (dv : JsVal),
        (truthy dv && typeofObj dv && hasSymbolField dv) = false →
        findSubscription subs dv (JsVal.val (JValue.jstr ch)) = mapGet ch subs)
    ∧ (∀ (es : Bool) (subs : Registry) (hbeh : HandlerBehavior) (msg : JValue)
        (tv : JsVal) (ch s : String) (fs : List (String × JValue)) (sub : Subscription),
        getProp msg "type" = Except.ok tv → isPong tv = false →
        getProp msg "channel" = Except.ok (JsVal.val (JValue.jstr ch)) →
        getProp msg "data" = Except.ok (JsVal.val (JValue.jobj fs)) →
        lookupField "symbol" fs = some (JValue.jstr s) →
        mapGet (ch ++ ":" ++ s) subs = some sub →
        hbeh sub.handler (JsVal.val (JValue.jobj fs)) = none →
        handleMessage es subs hbeh (Except.ok msg)
          = [Effect.callbackInvoked sub.handler (JsVal.val (JValue.jobj fs))])
    ∧ (handleMessage true regC1 hbehNone (Except.ok msgC1)
          = [Effect.callbackInvoked 1 (JsVal.val dataC1)]
       ∧ ∀ d, Effect.callbackInvoked 2 d ∉ handleMessage true regC1 hbehNone (Except.ok msgC1)) := by
  have hfind : ∀ (subs : Registry) (ch s : String) (fs : List (String × JValue)),
      lookupField "symbol" fs = some (JValue.jstr s) →
      findSubscription subs (JsVal.val (JValue.jobj fs)) (JsVal.val (JValue.jstr ch)) =
        (match mapGet (ch ++ ":" ++ s) subs with
         | some sub => some sub
         | none => mapGet ch subs) := by
    intro subs ch s fs hsym
    rw [findSubscription, routingKey_symbol fs ch s hsym]
    rfl
  refine ⟨hfind, ?_, ?_, ?_, ?_⟩
  · intro subs ch dv h
    rw [findSubscription, routingKey_bare dv _ h]
    cases hg : jsMapGet subs (JsVal.val (JValue.jstr ch)) with
    | none => simpa [jsMapGet] using hg.symm
    | some sub => simpa [jsMapGet] using hg.symm
  · intro es subs hbeh msg tv ch s fs sub htype hpong hch hdata hsym hget hbe
    rw [handleMessage_dispatch es subs hbeh msg tv _ _ htype hpong hdata hch,
      hfind subs ch s fs hsym, hget]
    simp [hbe]
  · rfl
  · intro d hd
    have : handleMessage true regC1 hbehNone (Except.ok msgC1)
        = [Effect.callbackInvoked 1 (JsVal.val dataC1)] := rfl
    rw [this] at hd
    simp only [List.mem_singleton] at hd
    cases hd

/-- Witness: C1's general conjuncts applied to the concrete registry and
message. -/
theorem claim_C1_witness :
    findSubscription regC1 (JsVal.val dataC1) (JsVal.val (JValue.jstr "orderbook")) =
      (match mapGet ("orderbook" ++ ":" ++ "BTC-USDT") regC1 with
       | some sub => some sub
       | none => mapGet "orderbook" regC1)
    ∧ findSubscription regC1 JsVal.undef (JsVal.val (JValue.jstr "orderbook"))
        = mapGet "orderbook" regC1
    ∧ handleMessage true regC1 hbehNone (Except.ok msgC1)
        = [Effect.callbackInvoked 1 (JsVal.val dataC1)] :=
  ⟨claim_C1.1 regC1 "orderbook" "BTC-USDT" dataFieldsC1 rfl,
   claim_C1.2.1 regC1 "orderbook" JsVal.undef rfl,
   claim_C1.2.2.1 true regC1 hbehNone msgC1 JsVal.undef "orderbook" "BTC-USDT"
     dataFieldsC1 ⟨"orderbook", some "BTC-USDT", 1⟩ rfl rfl rfl rfl rfl rfl rfl⟩

/-- C7: `handleMessage` never throws to its caller — a malformed frame is
caught and reported only to the registered error handler (and swallowed
when none is registered); a pong frame returns without dispatch; a routed
message invokes the stored callback with the message's `data` payload
only; an unmatched message produces no callback invocation and no
error. -/
theorem claim_C7 :
    (∀ (subs : Registry) (hbeh : HandlerBehavior) (e : JsErr),
        handleMessage true subs hbeh (Except.error e)
          = [Effect.errorReported (coerceCaught e)]
        ∧ handleMessage false subs hbeh (Except.error e) = [])
    ∧ (∀ (es : Bool) (subs : Registry) (hbeh : HandlerBehavior) (msg : JValue) (tv : JsVal),
        getProp msg "type" = Except.ok tv → isPong tv = true →
        handleMessage es subs hbeh (Except.ok msg) = [])
    ∧ (∀ (es : Bool) (subs : Registry) (hbeh : HandlerBehavior) (msg : JValue)
        (tv dv cv : JsVal) (sub : Subscription),
        getProp msg "type" = Except.ok tv → isPong tv = false →
        getProp msg "data" = Except.ok dv → getProp msg "channel" = Except.ok cv →
        findSubscription subs dv cv = some sub → hbeh sub.handler dv = none →
        handleMessage es subs hbeh (Except.ok msg)
          = [Effect.callbackInvoked sub.handler dv])
    ∧ (∀ (es : Bool) (subs : Registry) (hbeh : HandlerBehavior) (msg : JValue)
        (tv dv cv : JsVal),
        getProp msg "type" = Except.ok tv → isPong tv = false →
        getProp msg "data" = Except.ok dv → getProp msg "channel" = Except.ok cv →
        findSubscription subs dv cv = none →
        handleMessage es subs hbeh (Except.ok msg) = []) := by
  refine ⟨?_, ?_, ?_, ?_⟩
  · intro subs hbeh e
    exact ⟨rfl, rfl⟩
  · intro es subs hbeh msg tv htype hpong
    simp [handleMessage, handleMessageCore, htype, hpong]
  · intro es subs hbeh msg tv dv cv sub htype hpong hdata hch hfind hbe
    rw [handleMessage_dispatch es subs hbeh msg tv dv cv htype hpong hdata hch, hfind]
    simp [hbe]
  · intro es subs hbeh msg tv dv cv htype hpong hdata hch hfind
    rw [handleMessage_dispatch es subs hbeh msg tv dv cv htype hpong hdata hch, hfind]

/-- Witness: C7's conjuncts at concrete frames — a malformed frame, a pong
frame, the routed example message and an unmatched message. -/
theorem claim_C7_witness :
    (handleMessage true regC1 hbehNone (Except.error (JsErr.errObj "SyntaxError"))
        = [Effect.errorReported "SyntaxError"]
      ∧ handleMessage false regC1 hbehNone (Except.error (JsErr.errObj "SyntaxError")) = [])
    ∧ handleMessage true regC1 hbehNone (Except.ok pongMsg) = []
    ∧ handleMessage true regC1 hbehNone (Except.ok msgC1)
        = [Effect.callbackInvoked 1 (JsVal.val dataC1)]
    ∧ handleMessage true regC1 hbehNone (Except.ok msgNoMatch) = [] :=
  ⟨claim_C7.1 regC1 hbehNone (JsErr.errObj "SyntaxError"),
   claim_C7.2.1 true regC1 hbehNone pongMsg (JsVal.val (JValue.jstr "pong")) rfl rfl,
   claim_C7.2.2.1 true regC1 hbehNone msgC1 JsVal.undef (JsVal.val dataC1)
     (JsVal.val (JValue.jstr "orderbook")) ⟨"orderbook", some "BTC-USDT", 1⟩
     rfl rfl rfl rfl rfl rfl,
   claim_C7.2.2.2 true regC1 hbehNone msgNoMatch JsVal.undef
     (JsVal.val (JValue.jobj [("symbol", JValue.jstr "BTC-USDT")]))
     (JsVal.val (JValue.jstr "trades")) rfl rfl rfl rfl rfl⟩

/-- C10: an exception thrown by a caller-supplied callback during dispatch
does not propagate out of `handleMessage` — the invocation happens inside
the `try`, the thrown value is routed to the registered error handler (or
swallowed when none is registered), and a non-`Error` throw is reported
with the very same message as a decode failure. -/
theorem claim_C10 : ∀ (subs : Registry) (hbeh : HandlerBehavior) (msg : JValue)
    (tv dv cv : JsVal) (sub : Subscription) (e : JsErr),
    getProp msg "type" = Except.ok tv → isPong tv = false →
    getProp msg "data" = Except.ok dv → getProp msg "channel" = Except.ok cv →
    findSubscription subs dv cv = some sub →
    hbeh sub.handler dv = some e →
    (handleMessage true subs hbeh (Except.ok msg)
        = [Effect.callbackInvoked sub.handler dv, Effect.errorReported (coerceCaught e)])
    ∧ handleMessage false subs hbeh (Except.ok msg)
        = [Effect.callbackInvoked sub.handler dv]
    ∧ (∀ v, e = JsErr.nonErrVal v → coerceCaught e = "Failed to parse message") := by
  intro subs hbeh msg tv dv cv sub e htype hpong hdata hch hfind hbe
  refine ⟨?_, ?_, ?_⟩
  · rw [handleMessage_dispatch true subs hbeh msg tv dv cv htype hpong hdata hch, hfind]
    simp [hbe]
  · rw [handleMessage_dispatch false subs hbeh msg tv dv cv htype hpong hdata hch, hfind]
    simp [hbe]
  · intro v hv
    rw [hv]
    rfl

/-- Witness: C10 applied to the example message with a callback that
throws. -/
theorem claim_C10_witness :
    handleMessage true regC1 hbehBoom (Except.ok msgC1)
        = [Effect.callbackInvoked 1 (JsVal.val dataC1), Effect.errorReported "boom"]
    ∧ handleMessage false regC1 hbehBoom (Except.ok msgC1)
        = [Effect.callbackInvoked 1 (JsVal.val dataC1)] :=
  ⟨(claim_C10 regC1 hbehBoom msgC1 JsVal.undef (JsVal.val dataC1)
      (JsVal.val (JValue.jstr "orderbook")) ⟨"orderbook", some "BTC-USDT", 1⟩
      (JsErr.errObj "boom") rfl rfl rfl rfl rfl rfl).1,
   (claim_C10 regC1 hbehBoom msgC1 JsVal.undef (JsVal.val dataC1)
      (JsVal.val (JValue.jstr "orderbook")) ⟨"orderbook", some "BTC-USDT", 1⟩
      (JsErr.errObj "boom") rfl rfl rfl rfl rfl rfl).2.1⟩

/-- A world whose client holds one open transport handle and an empty
registry. -/
def wOpenC2 : World :=
  { client := { mkClient none none none with ws := some 0 },
    sockets := [ReadyState.opened] }

/-- Counterexample to C2 as stated: after subscribing on an open transport
and invoking the returned closure once, invoking the same closure a second
time is not a no-op — it sends another wire unsubscribe message, because
the closure's wire send is guarded only by the transport being open, not by
the key still being present. -/
theorem claim_C2_cex :
    ((unsubscribe (subscribe wOpenC2 "orderbook" (some "BTC-USDT") 7).1
        (subscribe wOpenC2 "orderbook" (some "BTC-USDT") 7).2.2).2
      = [Effect.wireSend (OutMsg.unsubMsg "orderbook" (some "BTC-USDT"))])
    ∧ ((unsubscribe
          (unsubscribe (subscribe wOpenC2 "orderbook" (some "BTC-USDT") 7).1
            (subscribe wOpenC2 "orderbook" (some "BTC-USDT") 7).2.2).1
          (subscribe wOpenC2 "orderbook" (some "BTC-USDT") 7).2.2).2
      = [Effect.wireSend (OutMsg.unsubMsg "orderbook" (some "BTC-USDT"))])
    ∧ ((unsubscribe
          (unsubscribe (subscribe wOpenC2 "orderbook" (some "BTC-USDT") 7).1
            (subscribe wOpenC2 "orderbook" (some "BTC-USDT") 7).2.2).1
          (subscribe wOpenC2 "orderbook" (some "BTC-USDT") 7).2.2).2 ≠ []) := by
  refine ⟨rfl, rfl, ?_⟩
  intro h
  exact List.noConfusion h

/-- C2 as amended: invoking the closure removes the entry from the registry
by its captured key and, while the transport is open, sends one wire
unsubscribe message per invocation; afterwards inbound messages are only
ever delivered to callbacks still present in the registry; a second
invocation leaves the registry unchanged (the key is already absent) but,
if the transport is open, sends another wire unsubscribe message. -/
theorem claim_C2_amended : ∀ (w : World) (ch : String) (sym : Option String) (hd : Nat),
    ((subscribe w ch sym hd).2.2.key = subKey ch sym)
    ∧ ((unsubscribe (subscribe w ch sym hd).1 (subscribe w ch sym hd).2.2).1.client.subscriptions
        = mapDelete (subKey ch sym) (subscribe w ch sym hd).1.client.subscriptions)
    ∧ (wsOpenB (subscribe w ch sym hd).1 = true →
        (unsubscribe (subscribe w ch sym hd).1 (subscribe w ch sym hd).2.2).2
          = [Effect.wireSend (OutMsg.unsubMsg ch sym)])
    ∧ (wsOpenB (subscribe w ch sym hd).1 = false →
        (unsubscribe (subscribe w ch sym hd).1 (subscribe w ch sym hd).2.2).2 = [])
    ∧ ((w.client.subscriptions.map Prod.fst).Nodup →
        mapGet (subKey ch sym)
          (unsubscribe (subscribe w ch sym hd).1 (subscribe w ch sym hd).2.2).1.client.subscriptions
          = none
        ∧ (unsubscribe
             (unsubscribe (subscribe w ch sym hd).1 (subscribe w ch sym hd).2.2).1
             (subscribe w ch sym hd).2.2).1.client.subscriptions
          = (unsubscribe (subscribe w ch sym hd).1 (subscribe w ch sym hd).2.2).1.client.subscriptions)
    ∧ (wsOpenB (unsubscribe (subscribe w ch sym hd).1 (subscribe w ch sym hd).2.2).1 = true →
        (unsubscribe
           (unsubscribe (subscribe w ch sym hd).1 (subscribe w ch sym hd).2.2).1
           (subscribe w ch sym hd).2.2).2
          = [Effect.wireSend (OutMsg.unsubMsg ch sym)])
    ∧ (∀ (es : Bool) (hbeh : HandlerBehavior) (frame : Except JsErr JValue) (g : Nat) (d : JsVal),
        Effect.callbackInvoked g d ∈ handleMessage es
          (unsubscribe (subscribe w ch sym hd).1 (subscribe w ch sym hd).2.2).1.client.subscriptions
          hbeh frame →
        ∃ k s, mapGet k
          (unsubscribe (subscribe w ch sym hd).1 (subscribe w ch sym hd).2.2).1.client.subscriptions
          = some s ∧ s.handler = g) := by
  intro w ch sym hd
  refine ⟨rfl, rfl, ?_, ?_, ?_, ?_, ?_⟩
  · intro h
    show send (subscribe w ch sym hd).1 (OutMsg.unsubMsg ch sym)
      = [Effect.wireSend (OutMsg.unsubMsg ch sym)]
    simp [send, h]
  · intro h
    show send (subscribe w ch sym hd).1 (OutMsg.unsubMsg ch sym) = []
    simp [send, h]
  · intro hnd
    have hsubs : (unsubscribe (subscribe w ch sym hd).1
          (subscribe w ch sym hd).2.2).1.client.subscriptions
        = mapDelete (subKey ch sym) w.client.subscriptions := by
      show mapDelete (subKey ch sym)
          (mapSet (subKey ch sym) ⟨ch, sym, hd⟩ w.client.subscriptions)
        = mapDelete (subKey ch sym) w.client.subscriptions
      exact mapDelete_mapSet _ _ _
    constructor
    · rw [hsubs]
      exact mapGet_mapDelete_self _ _ hnd
    · show mapDelete (subKey ch sym) (unsubscribe (subscribe w ch sym hd).1
          (subscribe w ch sym hd).2.2).1.client.subscriptions
        = (unsubscribe (subscribe w ch sym hd).1
            (subscribe w ch sym hd).2.2).1.client.subscriptions
      rw [hsubs]
      exact mapDelete_not_mem _ _ (not_mem_keys_mapDelete _ _ hnd)
  · intro h
    show send (unsubscribe (subscribe w ch sym hd).1 (subscribe w ch sym hd).2.2).1
        (OutMsg.unsubMsg ch sym)
      = [Effect.wireSend (OutMsg.unsubMsg ch sym)]
    simp [send, h]
  · intro es hbeh frame g d hmem
    rcases handleMessage_mem _ _ _ _ _ hmem with ⟨m, hm⟩ | ⟨k, s, dd, hk, hm⟩
    · cases hm
    · cases hm
      exact ⟨k, s, hk, rfl⟩

/-- Witness: C2's amended claim at the concrete open-transport world, with
the open-transport hypotheses discharged. -/
theorem claim_C2_witness :
    wsOpenB (subscribe wOpenC2 "orderbook" (some "BTC-USDT") 7).1 = true
    ∧ ((wOpenC2.client.subscriptions.map Prod.fst).Nodup)
    ∧ ((unsubscribe (subscribe wOpenC2 "orderbook" (some "BTC-USDT") 7).1
          (subscribe wOpenC2 "orderbook" (some "BTC-USDT") 7).2.2).2
        = [Effect.wireSend (OutMsg.unsubMsg "orderbook" (some "BTC-USDT"))])
    ∧ mapGet (subKey "orderbook" (some "BTC-USDT"))
        (unsubscribe (subscribe wOpenC2 "orderbook" (some "BTC-USDT") 7).1
          (subscribe wOpenC2 "orderbook" (some "BTC-USDT") 7).2.2).1.client.subscriptions
        = none :=
  ⟨rfl, List.nodup_nil,
   (claim_C2_amended wOpenC2 "orderbook" (some "BTC-USDT") 7).2.2.1 rfl,
   ((claim_C2_amended wOpenC2 "orderbook" (some "BTC-USDT") 7).2.2.2.2.1 List.nodup_nil).1⟩

/-- C9: the unsubscribe closure captures only the identity key, not the
particular subscription it was created for — registering a second
subscription under the same key and then invoking the older closure
removes the newer subscription; indeed the closures returned for the same
channel/symbol are identical values. -/
theorem claim_C9 : ∀ (w : World) (ch : String) (sym : Option String) (h1 h2 : Nat),
    (w.client.subscriptions.map Prod.fst).Nodup →
    mapGet (subKey ch sym)
        (subscribe (subscribe w ch sym h1).1 ch sym h2).1.client.subscriptions
      = some ⟨ch, sym, h2⟩
    ∧ mapGet (subKey ch sym)
        (unsubscribe (subscribe (subscribe w ch sym h1).1 ch sym h2).1
          (subscribe w ch sym h1).2.2).1.client.subscriptions = none
    ∧ (subscribe w ch sym h1).2.2 = ⟨subKey ch sym, ch, sym⟩
    ∧ (subscribe (subscribe w ch sym h1).1 ch sym h2).2.2 = ⟨subKey ch sym, ch, sym⟩ := by
  intro w ch sym h1 h2 hnd
  refine ⟨?_, ?_, rfl, rfl⟩
  · exact mapGet_mapSet_self _ _ _
  · show mapGet (subKey ch sym)
        (mapDelete (subKey ch sym)
          (mapSet (subKey ch sym) ⟨ch, sym, h2⟩
            (mapSet (subKey ch sym) ⟨ch, sym, h1⟩ w.client.subscriptions))) = none
    rw [mapDelete_mapSet, mapDelete_mapSet]
    exact mapGet_mapDelete_self _ _ hnd

/-- Witness: C9 at a fresh client with an empty (hence duplicate-free)
registry. -/
theorem claim_C9_witness :
    mapGet (subKey "ticker" (some "BTC-USDT"))
        (subscribe (subscribe { client := mkClient none none none, sockets := [] }
            "ticker" (some "BTC-USDT") 1).1 "ticker" (some "BTC-USDT") 2).1.client.subscriptions
      = some ⟨"ticker", some "BTC-USDT", 2⟩
    ∧ mapGet (subKey "ticker" (some "BTC-USDT"))
        (unsubscribe (subscribe (subscribe { client := mkClient none none none, sockets := [] }
            "ticker" (some "BTC-USDT") 1).1 "ticker" (some "BTC-USDT") 2).1
          (subscribe { client := mkClient none none none, sockets := [] }
            "ticker" (some "BTC-USDT") 1).2.2).1.client.subscriptions = none :=
  ⟨(claim_C9 { client := mkClient none none none, sockets := [] }
      "ticker" (some "BTC-USDT") 1 2 List.nodup_nil).1,
   (claim_C9 { client := mkClient none none none, sockets := [] }
      "ticker" (some "BTC-USDT") 1 2 List.nodup_nil).2.1⟩

/-- C3: the counter is incremented before each scheduled try and the delay
scheduled for attempt `n` is `reconnectInterval * 1.5 ^ (n - 1)`, so with a
positive base interval consecutive delays strictly increase; once the
counter reaches `maxReconnectAttempts` a further call schedules nothing
and only reports the exhausted-retries error, so a reconnection sequence
driven from a fresh counter reports that error exactly once, after its
last scheduled attempt. -/
theorem claim_C3 : ∀ (c : Client),
    (c.reconnectAttempts < c.maxReconnectAttempts →
      scheduleReconnect c =
        ({ c with reconnectAttempts := c.reconnectAttempts + 1, reconnectTimeout := true },
         [Effect.timerSet (c.reconnectInterval * (3 / 2 : Rat) ^ c.reconnectAttempts)]))
    ∧ (0 < c.reconnectInterval → ∀ n : Nat,
        c.reconnectInterval * (3 / 2 : Rat) ^ n
          < c.reconnectInterval * (3 / 2 : Rat) ^ (n + 1))
    ∧ (c.maxReconnectAttempts ≤ c.reconnectAttempts →
        (scheduleReconnect c).1 = c
        ∧ (scheduleReconnect c).2
          = (if c.errSet then [Effect.errorReported "Max reconnection attempts reached"] else []))
    ∧ (c.reconnectAttempts = 0 →
        driveReconnects c =
          (List.range c.maxReconnectAttempts).map
            (fun i => Effect.timerSet (c.reconnectInterval * (3 / 2 : Rat) ^ i))
          ++ (if c.errSet then [Effect.errorReported "Max reconnection attempts reached"] else [])
        ∧ ((driveReconnects c).filter isErrEffect).length = (if c.errSet then 1 else 0)) := by
  intro c
  refine ⟨?_, ?_, ?_, ?_⟩
  · intro hlt
    rw [scheduleReconnect, if_neg (Nat.not_le.mpr hlt)]
    simp [Nat.add_sub_cancel]
  · intro hI n
    have hpow : (3 / 2 : Rat) ^ n < (3 / 2 : Rat) ^ (n + 1) := by
      have h1 : (3 / 2 : Rat) ^ n * 1 < (3 / 2 : Rat) ^ n * (3 / 2) :=
        mul_lt_mul_of_pos_left (by norm_num) (pow_pos (by norm_num) n)
      simpa [pow_succ] using h1
    exact mul_lt_mul_of_pos_left hpow hI
  · intro hM
    rw [scheduleReconnect, if_pos hM]
    exact ⟨rfl, rfl⟩
  · intro h0
    have hdrive : driveReconnects c =
        (List.range c.maxReconnectAttempts).map
          (fun i => Effect.timerSet (c.reconnectInterval * (3 / 2 : Rat) ^ i))
        ++ (if c.errSet then [Effect.errorReported "Max reconnection attempts reached"] else []) := by
      have hs := driveReconnectsFuel_spec
        (c.maxReconnectAttempts - c.reconnectAttempts + 1) c (by omega)
      rw [driveReconnects, hs, h0]
      simp
    refine ⟨hdrive, ?_⟩
    rw [hdrive, List.filter_append]
    have hmap : ((List.range c.maxReconnectAttempts).map
        (fun i => Effect.timerSet (c.reconnectInterval * (3 / 2 : Rat) ^ i))).filter isErrEffect
        = [] := by
      rw [List.filter_map]
      simp [Function.comp, isErrEffect]
    rw [hmap]
    cases he : c.errSet <;> simp [isErrEffect]

/-- A concrete client for instantiating C3: interval 1000, cap 3, error
handler registered, counter fresh. -/
def cC3 : Client := { mkClient none (some 1000) (some 3) with errSet := true }

/-- Witness: C3 at the concrete client — three strictly growing delays and
then exactly one exhausted-retries report. -/
theorem claim_C3_witness :
    cC3.reconnectAttempts < cC3.maxReconnectAttempts
    ∧ scheduleReconnect cC3 =
        ({ cC3 with reconnectAttempts := cC3.reconnectAttempts + 1, reconnectTimeout := true },
         [Effect.timerSet (cC3.reconnectInterval * (3 / 2 : Rat) ^ cC3.reconnectAttempts)])
    ∧ driveReconnects cC3 =
        (List.range cC3.maxReconnectAttempts).map
          (fun i => Effect.timerSet (cC3.reconnectInterval * (3 / 2 : Rat) ^ i))
        ++ (if cC3.errSet then [Effect.errorReported "Max reconnection attempts reached"] else [])
    ∧ ((driveReconnects cC3).filter isErrEffect).length = (if cC3.errSet then 1 else 0) :=
  ⟨by decide,
   (claim_C3 cC3).1 (by decide),
   ((claim_C3 cC3).2.2.2 rfl).1,
   ((claim_C3 cC3).2.2.2 rfl).2⟩

/-- The `onclose` handler never touches the subscription registry. -/
theorem oncloseBody_subscriptions (w : World) (wc : Bool) :
    (oncloseBody w wc).1.client.subscriptions = w.client.subscriptions := by
  dsimp only [oncloseBody, scheduleReconnect]
  split
  · split <;> rfl
  · rfl

/-- C4: after `disconnect()` has been called, no later closure event —
clean or not, from any (possibly stale) transport handle, after any
intervening activity — ever schedules a reconnection attempt; and a clean
closure never schedules one in any state. -/
theorem claim_C4 : ∀ (hbeh : HandlerBehavior) (w : World) (evs : List Ev)
    (id : Nat) (wasClean : Bool),
    (∀ d : Rat, Effect.timerSet d ∉
        (step hbeh (runTrace hbeh (disconnect w).1 evs).1 (Ev.sockClose id wasClean)).2)
    ∧ (step hbeh (runTrace hbeh (disconnect w).1 evs).1
        (Ev.sockClose id wasClean)).1.client.reconnectTimeout = false
    ∧ (∀ (w2 : World) (id2 : Nat) (d : Rat),
        Effect.timerSet d ∉ (step hbeh w2 (Ev.sockClose id2 true)).2) := by
  intro hbeh w evs id wasClean
  have hoff := runTrace_keeps_off hbeh evs (disconnect w).1
    (disconnect_off w).1 (disconnect_off w).2
  have hstep := step_keeps_off hbeh _ (Ev.sockClose id wasClean) hoff.1 hoff.2
  refine ⟨hstep.2.2, hstep.2.1, ?_⟩
  intro w2 id2 d
  simp only [step]
  rw [oncloseBody_clean
    { client := w2.client, sockets := setRS w2.sockets id2 ReadyState.closed }]
  simp

/-- Witness: C4 at a concrete world — a non-clean closure event arriving
right after `disconnect()` schedules nothing. -/
theorem claim_C4_witness :
    (∀ d : Rat, Effect.timerSet d ∉
        (step hbehNone (runTrace hbehNone (disconnect wOpenC2).1 []).1
          (Ev.sockClose 0 false)).2)
    ∧ (step hbehNone (runTrace hbehNone (disconnect wOpenC2).1 []).1
        (Ev.sockClose 0 false)).1.client.reconnectTimeout = false :=
  ⟨(claim_C4 hbehNone wOpenC2 [] 0 false).1,
   (claim_C4 hbehNone wOpenC2 [] 0 false).2.1⟩

/-- C8: `disconnect()` writes `false` into the stored reconnect option and
no subsequent operation — including later successful `connect()` calls —
ever restores it, so no later non-clean closure schedules a reconnect for
the rest of the instance's lifetime. -/
theorem claim_C8 : ∀ (w : World) (hbeh : HandlerBehavior) (evs : List Ev),
    (disconnect w).1.client.reconnect = false
    ∧ (runTrace hbeh (disconnect w).1 evs).1.client.reconnect = false
    ∧ (∀ (id : Nat) (d : Rat),
        Effect.timerSet d ∉
          (step hbeh (runTrace hbeh (disconnect w).1 evs).1 (Ev.sockClose id false)).2
        ∧ (step hbeh (runTrace hbeh (disconnect w).1 evs).1
            (Ev.sockClose id false)).1.client.reconnect = false) := by
  intro w hbeh evs
  have hoff := runTrace_keeps_off hbeh evs (disconnect w).1
    (disconnect_off w).1 (disconnect_off w).2
  refine ⟨(disconnect_off w).1, hoff.1, ?_⟩
  intro id d
  have hstep := step_keeps_off hbeh _ (Ev.sockClose id false) hoff.1 hoff.2
  exact ⟨hstep.2.2 d, hstep.1⟩

/-- Witness: C8 at a concrete world — the reconnect option stays off after
`disconnect()` followed by a reconnecting event sequence, and a later
non-clean closure schedules nothing. -/
theorem claim_C8_witness :
    (disconnect wOpenC2).1.client.reconnect = false
    ∧ (runTrace hbehNone (disconnect wOpenC2).1 [Ev.callConnect, Ev.sockOpen 1]).1.client.reconnect
        = false
    ∧ (∀ d : Rat, Effect.timerSet d ∉
        (step hbehNone
          (runTrace hbehNone (disconnect wOpenC2).1 [Ev.callConnect, Ev.sockOpen 1]).1
          (Ev.sockClose 1 false)).2) :=
  ⟨(claim_C8 wOpenC2 hbehNone [Ev.callConnect, Ev.sockOpen 1]).1,
   (claim_C8 wOpenC2 hbehNone [Ev.callConnect, Ev.sockOpen 1]).2.1,
   fun d => ((claim_C8 wOpenC2 hbehNone [Ev.callConnect, Ev.sockOpen 1]).2.2 1 d).1⟩

/-- C5: when the transport signals open on the handle currently held in
`this.ws`, every registry entry is replayed as a wire subscribe message in
insertion order, the attempt counter is reset to zero and the registry is
untouched; and neither a closure event nor a transport error clears the
registry, so a subscription made before a non-clean closure is still there
to be replayed on the next successful reconnection. -/
theorem claim_C5 : ∀ (hbeh : HandlerBehavior) (w : World) (id : Nat),
    w.client.ws = some id →
    nthRS w.sockets id = some ReadyState.connecting →
    ((step hbeh w (Ev.sockOpen id)).2
        = w.client.subscriptions.map
            (fun p => Effect.wireSend (OutMsg.subMsg p.2.channel p.2.symbol))
     ∧ (step hbeh w (Ev.sockOpen id)).1.client.reconnectAttempts = 0
     ∧ (step hbeh w (Ev.sockOpen id)).1.client.subscriptions = w.client.subscriptions)
    ∧ (∀ (w2 : World) (id2 : Nat) (wc : Bool),
        (step hbeh w2 (Ev.sockClose id2 wc)).1.client.subscriptions
          = w2.client.subscriptions)
    ∧ (∀ (w3 : World) (id3 : Nat),
        (step hbeh w3 (Ev.sockError id3)).1.client.subscriptions
          = w3.client.subscriptions) := by
  intro hbeh w id hws hconn
  have hnth := nthRS_setRS_self w.sockets id ReadyState.connecting ReadyState.opened hconn
  refine ⟨⟨?_, rfl, rfl⟩, ?_, ?_⟩
  · show resubscribeAll _ = _
    rw [resubscribeAll_open]
    show (match w.client.ws with
      | some j => decide (nthRS (setRS w.sockets id ReadyState.opened) j
          = some ReadyState.opened)
      | none => false) = true
    rw [hws]
    simp [hnth]
  · intro w2 id2 wc
    exact oncloseBody_subscriptions _ wc
  · intro w3 id3
    rfl

/-- A world for instantiating C5: one registered ticker subscription, the
current handle mid-connection. -/
def wC5 : World :=
  { client := { mkClient none none none with
      ws := some 0
      subscriptions := [("ticker:BTC-USDT", ⟨"ticker", some "BTC-USDT", 5⟩)] },
    sockets := [ReadyState.connecting] }

/-- Witness: C5 at the concrete world — the open signal replays the stored
ticker subscription as a wire subscribe message. -/
theorem claim_C5_witness :
    wC5.client.ws = some 0
    ∧ nthRS wC5.sockets 0 = some ReadyState.connecting
    ∧ (step hbehNone wC5 (Ev.sockOpen 0)).2
        = [Effect.wireSend (OutMsg.subMsg "ticker" (some "BTC-USDT"))]
    ∧ (step hbehNone wC5 (Ev.sockOpen 0)).1.client.reconnectAttempts = 0 :=
  ⟨rfl, rfl,
   (claim_C5 hbehNone wC5 0 rfl rfl).1.1,
   (claim_C5 hbehNone wC5 0 rfl rfl).1.2.1⟩

/-- A fresh default-configured client with no transport handle yet. -/
def wC6 : World := { client := mkClient none none none, sockets := [] }

/-- The event sequence refuting C6: connect, open, disconnect, connect
again (handle 1 starts connecting), the stale handle 0's close event
arrives (its handler clears `isConnecting`), then connect once more. -/
def traceC6 : List Ev :=
  [Ev.callConnect, Ev.sockOpen 0, Ev.callDisconnect, Ev.callConnect,
   Ev.sockClose 0 true, Ev.callConnect]

/-- `traceC6` without its final `connect()` call. -/
def traceC6pre : List Ev :=
  [Ev.callConnect, Ev.sockOpen 0, Ev.callDisconnect, Ev.callConnect,
   Ev.sockClose 0 true]

/-- Counterexample to C6 as stated: a deliverable event sequence on which,
with the connection attempt on handle 1 still in flight (`CONNECTING`), a
`connect()` call constructs a second transport handle — the stale handle
0's close handler had reset `isConnecting`, so the guard passes — leaving
two live handles at once. -/
theorem claim_C6_cex :
    traceOk hbehNone wC6 traceC6 = true
    ∧ (runTrace hbehNone wC6 traceC6pre).1.client.ws = some 1
    ∧ nthRS (runTrace hbehNone wC6 traceC6pre).1.sockets 1 = some ReadyState.connecting
    ∧ (runTrace hbehNone wC6 traceC6pre).1.client.isConnecting = false
    ∧ (runTrace hbehNone wC6 traceC6).1.sockets.length = 3
    ∧ liveCount (runTrace hbehNone wC6 traceC6).1.sockets = 2 := by
  decide

/-- C6 as amended: calling `connect()` while the current handle's
readyState is `OPEN` or while the `isConnecting` flag is set is an
idempotent no-op — it returns immediately without error, changes nothing
and constructs no transport handle.  (The flag, not the handle's state,
guards an in-flight attempt, and a stale handle's close or error event
resets the flag, so at most one live handle at all times is not
guaranteed.) -/
theorem claim_C6_amended : ∀ w : World,
    wsOpenB w = true ∨ w.client.isConnecting = true →
    connect w = (w, []) ∧ (connect w).1.sockets.length = w.sockets.length := by
  intro w h
  have hc : (wsOpenB w || w.client.isConnecting) = true := by
    rcases h with h | h <;> simp [h]
  constructor
  · simp [connect, hc]
  · simp [connect, hc]

/-- A fresh client whose `isConnecting` flag is set. -/
def wC6conn : World :=
  { client := { mkClient none none none with isConnecting := true }, sockets := [] }

/-- Witness: C6's amended claim at a client whose `isConnecting` flag is
set. -/
theorem claim_C6_witness : connect wC6conn = (wC6conn, []) :=
  (claim_C6_amended wC6conn (Or.inr rfl)).1

end KlingEx
